import Mathlib

/-!
Shallow embedding of the `federiconbaez/http` request-handling framework,
covering the parts the verified claims are about:

* the in-memory rate-limit adapter (`src/types.ts`, `MemoryRateLimitAdapter`);
* the in-memory cache adapter with its tag index
  (`src/unnamed/part_002`, `MemoryCacheAdapter`);
* the REST router's path-template compilation and dispatch
  (`src/createEndpoint.ts`, `createRestRouter` / `addRoute` / `handle`);
* the middleware pipeline's authentication and validation stages
  (`src/createEndpoint.ts` `buildMiddlewarePipeline`,
   `src/unnamed/part_004` `validateSchema`,
   `src/unnamed/part_005` `AuthManager.validateAuth`).

JavaScript numbers holding millisecond timestamps and counters are modelled
as `Int`; `Map` is modelled as an insertion-ordered association list
(`Map.set` replaces in place, new keys are appended, matching JS iteration
order); `Set` is modelled as an insertion-ordered duplicate-free list.
Asynchronous methods are pure state transformers: each method that reads
`Date.now()` takes the current time `now : Int` as an argument.
-/

namespace ApiFramework

/-- `Map.set k v`: replace in place if the key is present, append otherwise. -/
def setAssoc {β : Type} (k : String) (v : β) : List (String × β) → List (String × β)
  | [] => [(k, v)]
  | (k0, v0) :: rest =>
    if k0 = k then (k, v) :: rest else (k0, v0) :: setAssoc k v rest

/-- `Map.delete k`: remove the entry for `k` (present at most once). -/
def eraseAssoc {β : Type} (k : String) : List (String × β) → List (String × β)
  | [] => []
  | (k0, v0) :: rest =>
    if k0 = k then rest else (k0, v0) :: eraseAssoc k rest

/-- Association-list lookup (keys occur at most once by construction). -/
def lookupAssoc {β : Type} (k : String) : List (String × β) → Option β
  | [] => none
  | (k0, v0) :: rest => if k0 = k then some v0 else lookupAssoc k rest

/-- `Math.ceil (a / 1000)` on an integer number of milliseconds. -/
def ceilDivMs (a : Int) : Int := -(Int.ediv (-a) 1000)

/-! ## Memory rate-limit adapter (`src/types.ts`, lines 626–720) -/

/-- Options passed to the rate-limit adapter: `limit` and `window` (seconds). -/
structure RateLimitOptions where
  limit : Int
  window : Int
  deriving DecidableEq, Repr

/-- A stored fixed window: `{ count, resetAt }` (`resetAt` in ms). -/
structure RateWindow where
  count : Int
  resetAt : Int
  deriving DecidableEq, Repr

/-- The result shape returned by `increment` and `get`. -/
structure RateLimitResult where
  limited : Bool
  remaining : Int
  limit : Int
  reset : Int
  retryAfter : Int
  deriving DecidableEq, Repr

/-- The adapter's `limits : Map<string, {count, resetAt}>`. -/
def RateLimitState : Type := List (String × RateWindow)

namespace MemoryRateLimitAdapter

/-- `MemoryRateLimitAdapter.increment(key, options)` at time `now`
(`src/types.ts` lines 643–677): start a fresh window with count 1 when no
window exists or `now > resetAt`, otherwise bump the stored count; store the
window back and report `limited = count > limit`,
`remaining = max(0, limit - count)`, `reset = ceil((resetAt - now)/1000)`,
`retryAfter = limited ? reset : 0`. -/
def increment (s : RateLimitState) (key : String) (options : RateLimitOptions)
    (now : Int) : RateLimitResult × RateLimitState :=
  let windowMs := options.window * 1000
  let limitData : RateWindow :=
    match lookupAssoc key s with
    | none => { count := 1, resetAt := now + windowMs }
    | some w =>
      if now > w.resetAt then { count := 1, resetAt := now + windowMs }
      else { count := w.count + 1, resetAt := w.resetAt }
  let s2 := setAssoc key limitData s
  let remaining := max 0 (options.limit - limitData.count)
  let limited := limitData.count > options.limit
  ({ limited := limited
     remaining := remaining
     limit := options.limit
     reset := ceilDivMs (limitData.resetAt - now)
     retryAfter := if limited then ceilDivMs (limitData.resetAt - now) else 0 },
   s2)

/-- `MemoryRateLimitAdapter.get(key, options)` at time `now`
(`src/types.ts` lines 682–709): a missing key reports the full limit with
`reset = 0`; otherwise the stored count is reported unchanged with
`limited = count >= limit`. The store is not mutated. -/
def get (s : RateLimitState) (key : String) (options : RateLimitOptions)
    (now : Int) : RateLimitResult :=
  match lookupAssoc key s with
  | none =>
    { limited := false
      remaining := options.limit
      limit := options.limit
      reset := 0
      retryAfter := 0 }
  | some limitData =>
    let remaining := max 0 (options.limit - limitData.count)
    let limited := limitData.count ≥ options.limit
    { limited := limited
      remaining := remaining
      limit := options.limit
      reset := ceilDivMs (limitData.resetAt - now)
      retryAfter := if limited then ceilDivMs (limitData.resetAt - now) else 0 }

/-- `MemoryRateLimitAdapter.reset(key)`: delete the stored window. -/
def reset (s : RateLimitState) (key : String) : RateLimitState :=
  eraseAssoc key s

end MemoryRateLimitAdapter

/-! ## Memory cache adapter (`src/unnamed/part_002`, lines 161–315) -/

/-- `CacheEntry`: `{ value, expires, createdAt, tags }` (`expires` in ms,
`0` meaning never). -/
structure CacheEntry (α : Type) where
  value : α
  expires : Int
  createdAt : Int
  tags : List String
  deriving DecidableEq, Repr

/-- The adapter's two maps: `cache : Map<string, CacheEntry>` and
`tagIndex : Map<string, Set<string>>`. -/
structure CacheState (α : Type) where
  cache : List (String × CacheEntry α)
  tagIndex : List (String × List String)
  deriving DecidableEq, Repr

/-- The options record accepted by `set`: `{ ttl?, tags? }`. -/
structure CacheSetOptions where
  ttl : Option Int := none
  tags : Option (List String) := none
  deriving DecidableEq, Repr

namespace MemoryCacheAdapter

/-- The adapter starts with both maps empty. -/
def empty {α : Type} : CacheState α := { cache := [], tagIndex := [] }

/-- `Set.add key` on a tag's key set (JS `Set` keeps insertion order and
ignores duplicates). -/
def addKeyToSet (key : String) (keys : List String) : List String :=
  if key ∈ keys then keys else keys ++ [key]

/-- `removeFromTagIndex(key)` (`src/unnamed/part_002` lines 300–315):
look the key up in `cache`; when absent or tagless do nothing, otherwise
delete the key from each of its tags' sets, dropping a set that becomes
empty. -/
def removeFromTagIndex {α : Type} (s : CacheState α) (key : String) :
    CacheState α :=
  match lookupAssoc key s.cache with
  | none => s
  | some entry =>
    if entry.tags = [] then s
    else
      { s with
        tagIndex :=
          entry.tags.foldl
            (fun ti tag =>
              match lookupAssoc tag ti with
              | none => ti
              | some keys =>
                let keys2 := keys.erase key
                if keys2 = [] then eraseAssoc tag ti
                else setAssoc tag keys2 ti)
            s.tagIndex }

/-- `get(key)` at time `now` (`src/unnamed/part_002` lines 181–195): a miss
when the entry is absent or `expires ≠ 0 && expires <= now`; an expired read
deletes the cache entry first and only then calls `removeFromTagIndex`
(which therefore no longer finds the entry). -/
def get {α : Type} (s : CacheState α) (key : String) (now : Int) :
    Option α × CacheState α :=
  match lookupAssoc key s.cache with
  | none => (none, s)
  | some entry =>
    if entry.expires ≠ 0 ∧ entry.expires ≤ now then
      let s1 : CacheState α := { s with cache := eraseAssoc key s.cache }
      (none, removeFromTagIndex s1 key)
    else (some entry.value, s)

/-- `set(key, value, options)` at time `now` (`src/unnamed/part_002`
lines 200–225): `ttl` defaults to 300 seconds when the option is absent,
`ttl = 0` stores `expires = 0` (never); the entry is upserted and the key is
added to each given tag's index set. -/
def set {α : Type} (s : CacheState α) (key : String) (value : α)
    (options : CacheSetOptions) (now : Int) : CacheState α :=
  let ttl := match options.ttl with | some t => t | none => 300
  let expires := if ttl = 0 then 0 else now + ttl * 1000
  let entry : CacheEntry α :=
    { value := value
      expires := expires
      createdAt := now
      tags := options.tags.getD [] }
  let s1 : CacheState α := { s with cache := setAssoc key entry s.cache }
  match options.tags with
  | none => s1
  | some tags =>
    if tags = [] then s1
    else
      { s1 with
        tagIndex :=
          tags.foldl
            (fun ti tag =>
              setAssoc tag (addKeyToSet key (Option.getD (lookupAssoc tag ti) [])) ti)
            s1.tagIndex }

/-- `delete(key)` (`src/unnamed/part_002` lines 230–238): `false` for a
missing key; otherwise prune the tag index (while the entry is still
present) and then delete the entry. -/
def delete {α : Type} (s : CacheState α) (key : String) :
    Bool × CacheState α :=
  if (lookupAssoc key s.cache).isNone then (false, s)
  else
    let s1 := removeFromTagIndex s key
    (true, { s1 with cache := eraseAssoc key s1.cache })

/-- `invalidate(pattern)` (`src/unnamed/part_002` lines 243–252): remove
every key the pattern accepts, pruning tags before each deletion. The JS
`RegExp.test` is abstracted as a predicate on keys. -/
def invalidate {α : Type} (s : CacheState α) (test : String → Bool) :
    CacheState α :=
  ((s.cache.map Prod.fst).filter test).foldl
    (fun st key =>
      let st1 := removeFromTagIndex st key
      { st1 with cache := eraseAssoc key st1.cache })
    s

/-- `invalidateByTag(tag)` (`src/unnamed/part_002` lines 256–268): delete
every key in the tag's set from `cache` (without touching the other tags
those entries carry) and then drop the tag's index entry. -/
def invalidateByTag {α : Type} (s : CacheState α) (tag : String) :
    CacheState α :=
  match lookupAssoc tag s.tagIndex with
  | none => s
  | some keys =>
    { cache := keys.foldl (fun c key => eraseAssoc key c) s.cache
      tagIndex := eraseAssoc tag s.tagIndex }

/-- `clear()`: drop both maps. -/
def clear {α : Type} (_s : CacheState α) : CacheState α := empty

/-- `cleanup()` at time `now` (`src/unnamed/part_002` lines 277–293):
snapshot the expired keys, then prune each from the tag index (entry still
present) and delete it. -/
def cleanup {α : Type} (s : CacheState α) (now : Int) : CacheState α :=
  ((s.cache.filter (fun p => p.2.expires ≠ 0 ∧ p.2.expires ≤ now)).map
      Prod.fst).foldl
    (fun st key =>
      let st1 := removeFromTagIndex st key
      { st1 with cache := eraseAssoc key st1.cache })
    s

end MemoryCacheAdapter

/-- The documented tag-index invariant (spec §3, `CacheEntry`): every tag
carried by a stored entry indexes a set containing that entry's key, and
every key in a tag's set refers to a stored entry carrying that tag. -/
def tagInvariant {α : Type} (s : CacheState α) : Prop :=
  (∀ p ∈ s.cache, ∀ tag ∈ p.2.tags,
      ∃ q ∈ s.tagIndex, q.1 = tag ∧ p.1 ∈ q.2) ∧
  (∀ q ∈ s.tagIndex, ∀ key ∈ q.2,
      ∃ p ∈ s.cache, p.1 = key ∧ q.1 ∈ p.2.tags)

instance {α : Type} [DecidableEq α] (s : CacheState α) :
    Decidable (tagInvariant s) := by
  unfold tagInvariant
  infer_instance

/-! ## REST router (`src/createEndpoint.ts`, lines 281–465)

`addRoute` turns a template into a JS regex by the chain
`fullPath.replace(/\/$/,'').replace(/:([A-Za-z0-9_]+)/g,'([^/]+)')
.replace(/\*\*/g,'.*').replace(/\*/g,'[^/]*')` wrapped in `^…/?$`.
The regexes this chain can produce use only literal characters, `.`,
capturing `([^/]+)` groups and `[^/]*`; they are embedded as token lists
with JS `exec` semantics (leftmost match, greedy quantifiers with
backtracking, captures in group order).  Note that the fourth `replace`
also rewrites the `*` inside the `.*` that the third produced for `**`,
so `**` compiles to `.` followed by `[^/]*`. -/

/-- One token of a compiled route pattern. -/
inductive Tok where
  /-- a literal character of the template -/
  | lit (c : Char)
  /-- `.` — any single character (produced for `**` and for a literal `.`) -/
  | dot
  /-- `([^/]+)` — a capturing group for a `:name` segment -/
  | seg
  /-- `[^/]*` — a non-capturing single-segment wildcard -/
  | star
  deriving DecidableEq, Repr

/-- Characters admitted in a `:name` parameter (`[A-Za-z0-9_]`). -/
def isNameChar (c : Char) : Bool :=
  (('A' ≤ c ∧ c ≤ 'Z') ∨ ('a' ≤ c ∧ c ≤ 'z') ∨ ('0' ≤ c ∧ c ≤ '9') ∨ c = '_' : Bool)

/-- Scanner for `collapseSlashes`: the flag records whether the previous
kept character was a `/` (in which case further slashes of the same run
are dropped). -/
def collapseSlashesAux : Bool → List Char → List Char
  | _, [] => []
  | prevSlash, c :: rest =>
    if c = '/' then
      if prevSlash then collapseSlashesAux true rest
      else '/' :: collapseSlashesAux true rest
    else c :: collapseSlashesAux false rest

/-- `fullPath.replace(/\/+/g, '/')`: collapse each run of slashes to one. -/
def collapseSlashes (l : List Char) : List Char :=
  collapseSlashesAux false l

/-- `.replace(/\/$/, '')`: drop one trailing slash. -/
def stripTrailingSlash (l : List Char) : List Char :=
  if l.getLast? = some '/' then l.dropLast else l

mutual

/-- The three remaining `replace` calls of `addRoute`, fused into one scan:
`:name` becomes a capturing `seg` token and records the name, `**` becomes
`dot` then `star` (the net effect of `.replace(/\*\*/g,'.*')` followed by
`.replace(/\*/g,'[^/]*')`), a lone `*` becomes `star`, a literal `.`
denotes any character, and everything else is literal. -/
def compileChars : List Char → List Tok × List String
  | [] => ([], [])
  | ':' :: rest => compileParam rest []
  | '*' :: '*' :: rest =>
    let (ts, ns) := compileChars rest
    (Tok.dot :: Tok.star :: ts, ns)
  | '*' :: rest =>
    let (ts, ns) := compileChars rest
    (Tok.star :: ts, ns)
  | '.' :: rest =>
    let (ts, ns) := compileChars rest
    (Tok.dot :: ts, ns)
  | c :: rest =>
    let (ts, ns) := compileChars rest
    (Tok.lit c :: ts, ns)

/-- Scanner state while reading the `[A-Za-z0-9_]*` characters after a
`:`; `acc` holds the name read so far, reversed.  At the first non-name
character (or the end), an empty name leaves the `:` literal (the regex
`/:([A-Za-z0-9_]+)/` needs at least one name character), a nonempty one
emits the capturing group; the boundary character is then dispatched
exactly as `compileChars` would. -/
def compileParam : List Char → List Char → List Tok × List String
  | [], acc =>
    if acc = [] then ([Tok.lit ':'], [])
    else ([Tok.seg], [String.mk acc.reverse])
  | ':' :: rest, acc =>
    let (ts, ns) := compileParam rest []
    if acc = [] then (Tok.lit ':' :: ts, ns)
    else (Tok.seg :: ts, String.mk acc.reverse :: ns)
  | '*' :: '*' :: rest, acc =>
    let (ts, ns) := compileChars rest
    if acc = [] then (Tok.lit ':' :: Tok.dot :: Tok.star :: ts, ns)
    else (Tok.seg :: Tok.dot :: Tok.star :: ts, String.mk acc.reverse :: ns)
  | '*' :: rest, acc =>
    let (ts, ns) := compileChars rest
    if acc = [] then (Tok.lit ':' :: Tok.star :: ts, ns)
    else (Tok.seg :: Tok.star :: ts, String.mk acc.reverse :: ns)
  | '.' :: rest, acc =>
    let (ts, ns) := compileChars rest
    if acc = [] then (Tok.lit ':' :: Tok.dot :: ts, ns)
    else (Tok.seg :: Tok.dot :: ts, String.mk acc.reverse :: ns)
  | c :: rest, acc =>
    if isNameChar c then compileParam rest (c :: acc)
    else
      let (ts, ns) := compileChars rest
      if acc = [] then (Tok.lit ':' :: Tok.lit c :: ts, ns)
      else (Tok.seg :: Tok.lit c :: ts, String.mk acc.reverse :: ns)

end

/-- The descending list `[n, n-1, …, 0]` (greedy try-order for `[^/]*`). -/
def descFromZero : Nat → List Nat
  | 0 => [0]
  | n + 1 => (n + 1) :: descFromZero n

/-- The descending list `[n, n-1, …, 1]` (greedy try-order for `([^/]+)`). -/
def descFromOne : Nat → List Nat
  | 0 => []
  | n + 1 => (n + 1) :: descFromOne n

/-- Length of the longest slash-free front of the input (the most a
`[^/]` quantifier can consume). -/
def nonSlashLen (s : List Char) : Nat :=
  (s.takeWhile (fun c => c ≠ '/')).length

/-- JS `RegExp.exec` of the compiled pattern `^toks/?$` against the rest of
the path, returning the captured groups in order (`none` = no match).
Greedy quantifiers try the longest feasible consumption first and
backtrack, exactly as JS regexes do. -/
def matchToks (toks : List Tok) (s : List Char) : Option (List String) :=
  match toks, s with
  | [], rest => if rest = [] ∨ rest = ['/'] then some [] else none
  | Tok.lit _ :: _, [] => none
  | Tok.lit c :: ts, x :: rest => if x = c then matchToks ts rest else none
  | Tok.dot :: _, [] => none
  | Tok.dot :: ts, _ :: rest => matchToks ts rest
  | Tok.star :: ts, rest =>
    (descFromZero (nonSlashLen rest)).findSome?
      (fun k => matchToks ts (rest.drop k))
  | Tok.seg :: ts, rest =>
    (descFromOne (nonSlashLen rest)).findSome?
      (fun k =>
        (matchToks ts (rest.drop k)).map
          (fun caps => String.mk (rest.take k) :: caps))

/-- A registered route: method, normalized path, compiled pattern, the
parameter names aligned with the pattern's capture groups, and the bound
handler (abstracted over its type). -/
structure Route (H : Type) where
  method : String
  path : String
  pattern : List Tok
  paramNames : List String
  handler : H
  deriving DecidableEq, Repr

/-- `addRoute(method, path, handler)` (`src/createEndpoint.ts` lines
413–465): normalize `basePath + path`, compile the pattern from the
normalized path with its trailing slash removed, and append the route. -/
def addRoute {H : Type} (routes : List (Route H)) (basePath : String)
    (method : String) (path : String) (handler : H) : List (Route H) :=
  let fullPath := collapseSlashes (basePath ++ path).data
  let compiled := compileChars (stripTrailingSlash fullPath)
  routes ++
    [{ method := method
       path := String.mk fullPath
       pattern := compiled.1
       paramNames := compiled.2
       handler := handler }]

/-- The per-route test inside `handle`'s loop: skip on method mismatch
(`route.method !== method && route.method !== 'ALL'`), else run the
pattern; on a match, pair the parameter names positionally with the
captured groups (`params[paramNames[i-1]] = match[i]`). -/
def matchRoute {H : Type} (r : Route H) (method : String) (path : String) :
    Option (List (String × String)) :=
  if r.method = method ∨ r.method = "ALL" then
    (matchToks r.pattern path.data).map (fun caps => r.paramNames.zip caps)
  else none

/-- `handle` (`src/createEndpoint.ts` lines 351–407): scan the routes in
registration order and dispatch to the first that matches; `none` models
the NotFound fallback. -/
def handle {H : Type} (routes : List (Route H)) (method : String)
    (path : String) : Option (Route H × List (String × String)) :=
  match routes with
  | [] => none
  | r :: rest =>
    match matchRoute r method path with
    | some params => some (r, params)
    | none => handle rest method path

/-! ## Validation and authentication stages of the middleware pipeline

`buildMiddlewarePipeline` (`src/createEndpoint.ts` lines 115–278) runs, for
a request that is not a health request and with rate limiting disabled:
the authentication stage, then the validation stage, then context assembly,
then the handler.  Schema validators are external collaborators; a schema
is modelled as its `validate` function, returning either the validated
record or the list of violation messages.  Request/record data is modelled
as string association lists. -/

/-- A record of string fields (query, body, or params data). -/
def Rec : Type := List (String × String)

/-- The collaborator interface `validate(data) -> (value, error?)`:
`Except.error` carries the schema's violation messages. -/
def Schema : Type := Rec → Except (List String) Rec

/-- `ApiError(message, statusCode, code?, …, metadata.details)`
(`src/response.ts`): the slice of the error object the claims inspect. -/
structure ApiError where
  message : String
  statusCode : Int
  code : Option String := none
  details : List String := []
  deriving DecidableEq, Repr

/-- `validateSchema(data, schema)` (`src/unnamed/part_004` lines 12–29):
a failing schema raises `ApiError("Validation error", 400,
"VALIDATION_ERROR", …, {details})` carrying that one schema's violations. -/
def validateSchema (data : Rec) (schema : Schema) : Except ApiError Rec :=
  match schema data with
  | Except.error errs =>
    Except.error
      { message := "Validation error"
        statusCode := 400
        code := some "VALIDATION_ERROR"
        details := errs }
  | Except.ok v => Except.ok v

/-- `config.validation`: the optional schemas for params, query and body. -/
structure ValidationCfg where
  params : Option Schema := none
  query : Option Schema := none
  body : Option Schema := none

/-- `config.auth` (the fields the pipeline reads). -/
structure AuthCfg where
  required : Bool := false
  optional : Bool := false
  roles : List String := []
  permissions : List String := []
  requireAllRoles : Bool := false
  requireAllPermissions : Bool := false

/-- `ApiUser`: id plus role and permission lists. -/
structure ApiUser where
  id : String
  roles : List String
  permissions : List String
  deriving DecidableEq, Repr

/-- A token-verification failure: either an `ApiError` thrown by the
provider, or any other exception (rethrown by `validateAuth` as
`ApiError("Authentication failed", 401)`). -/
inductive AuthFailure where
  | api (e : ApiError)
  | other (msg : String)

/-- The provider collaborator `verifyToken(token) -> ApiUser | throws`. -/
def Verifier : Type := String → Except AuthFailure ApiUser

/-- The request slice the auth and validation stages read.  `authToken`
models the result of `extractAuthToken` (Bearer header or cookie). -/
structure Req where
  method : String
  searchParams : Rec
  body : Rec
  authToken : Option String

/-- The options record `validateAuth` receives from the pipeline. -/
structure AuthOptions where
  requiredRoles : List String := []
  requiredPermissions : List String := []
  requireAllRoles : Bool := false
  requireAllPermissions : Bool := false

/-- `hasRequiredRoles` (`src/unnamed/part_005` lines 192–206). -/
def hasRequiredRoles (user : ApiUser) (requiredRoles : List String)
    (requireAll : Bool) : Bool :=
  if requireAll then requiredRoles.all (fun r => r ∈ user.roles)
  else requiredRoles.any (fun r => r ∈ user.roles)

/-- `hasRequiredPermissions` (`src/unnamed/part_005` lines 211–224). -/
def hasRequiredPermissions (user : ApiUser) (requiredPermissions : List String)
    (requireAll : Bool) : Bool :=
  if requireAll then requiredPermissions.all (fun p => p ∈ user.permissions)
  else requiredPermissions.any (fun p => p ∈ user.permissions)

/-- `AuthManager.validateAuth(req, options?)` (`src/unnamed/part_005`
lines 95–143): no token resolves to `undefined` (`Except.ok none`); a token
is verified by the provider, then the role and permission requirements are
checked (each failing with 403 "Insufficient permissions"); non-`ApiError`
exceptions are rethrown as `ApiError("Authentication failed", 401)`. -/
def validateAuth (verify : Verifier) (req : Req)
    (options : Option AuthOptions) : Except ApiError (Option ApiUser) :=
  match req.authToken with
  | none => Except.ok none
  | some token =>
    match verify token with
    | Except.error (AuthFailure.api e) => Except.error e
    | Except.error (AuthFailure.other _) =>
      Except.error { message := "Authentication failed", statusCode := 401 }
    | Except.ok user =>
      let opts := options.getD {}
      if opts.requiredRoles ≠ [] ∧
          ¬hasRequiredRoles user opts.requiredRoles opts.requireAllRoles then
        Except.error { message := "Insufficient permissions", statusCode := 403 }
      else if opts.requiredPermissions ≠ [] ∧
          ¬hasRequiredPermissions user opts.requiredPermissions
            opts.requireAllPermissions then
        Except.error { message := "Insufficient permissions", statusCode := 403 }
      else Except.ok (some user)

/-- The authentication stage of `buildMiddlewarePipeline`
(`src/createEndpoint.ts` lines 152–174): when required, a missing user is a
401 "Authentication required"; when merely optional, `validateAuth` is
called without options and every error is swallowed, leaving the user
unset. -/
def authStage (verify : Verifier) (auth : Option AuthCfg) (req : Req) :
    Except ApiError (Option ApiUser) :=
  match auth with
  | none => Except.ok none
  | some a =>
    if a.required then
      match validateAuth verify req
          (some { requiredRoles := a.roles
                  requiredPermissions := a.permissions
                  requireAllRoles := a.requireAllRoles
                  requireAllPermissions := a.requireAllPermissions }) with
      | Except.error e => Except.error e
      | Except.ok none =>
        Except.error { message := "Authentication required", statusCode := 401 }
      | Except.ok (some user) => Except.ok (some user)
    else if a.optional then
      match validateAuth verify req none with
      | Except.error _ => Except.ok none
      | Except.ok user => Except.ok user
    else Except.ok none

/-- The validation stage (`src/createEndpoint.ts` lines 176–205): the three
sections start out empty and are validated in the order params, query,
body — body only for POST/PUT/PATCH; the first failing section's
`ApiError` aborts the stage. -/
def validationStage (validation : Option ValidationCfg) (req : Req)
    (routeParams : Rec) : Except ApiError (Rec × Rec × Rec) :=
  match validation with
  | none => Except.ok ([], [], [])
  | some v =>
    let stepParams : Except ApiError Rec :=
      match v.params with
      | none => Except.ok []
      | some sch => validateSchema routeParams sch
    match stepParams with
    | Except.error e => Except.error e
    | Except.ok validatedParams =>
      let stepQuery : Except ApiError Rec :=
        match v.query with
        | none => Except.ok []
        | some sch => validateSchema req.searchParams sch
      match stepQuery with
      | Except.error e => Except.error e
      | Except.ok validatedQuery =>
        let stepBody : Except ApiError Rec :=
          match v.body with
          | none => Except.ok []
          | some sch =>
            if req.method = "POST" ∨ req.method = "PUT" ∨ req.method = "PATCH"
            then validateSchema req.body sch
            else Except.ok []
        match stepBody with
        | Except.error e => Except.error e
        | Except.ok validatedBody =>
          Except.ok (validatedParams, validatedQuery, validatedBody)

/-- JS object spread `{...a, ...b}` on string records: `b`'s values win on
key collision, `b`'s new keys are appended. -/
def spreadMerge (a b : Rec) : Rec :=
  b.foldl (fun acc p => setAssoc p.1 p.2 acc) a

/-- The context fields the claims inspect (`src/createEndpoint.ts`
lines 207–226): merged params, validated query and body, and the user. -/
structure ApiContext where
  params : Rec
  query : Rec
  body : Rec
  user : Option ApiUser

/-- The endpoint configuration slice for the auth and validation stages. -/
structure ApiConfig where
  auth : Option AuthCfg := none
  validation : Option ValidationCfg := none

/-- The pipeline slice from the authentication stage to the handler
(`buildMiddlewarePipeline` with health and rate limiting disabled and no
timeout or cache engaged): run auth, run validation, assemble the context
(`params = {...routeParams, ...validatedParams}`), invoke the handler. -/
def runPipeline {α : Type} (verify : Verifier) (config : ApiConfig)
    (handler : Req → ApiContext → α) (req : Req) (routeParams : Rec) :
    Except ApiError α :=
  match authStage verify config.auth req with
  | Except.error e => Except.error e
  | Except.ok user =>
    match validationStage config.validation req routeParams with
    | Except.error e => Except.error e
    | Except.ok (validatedParams, validatedQuery, validatedBody) =>
      Except.ok
        (handler req
          { params := spreadMerge routeParams validatedParams
            query := validatedQuery
            body := validatedBody
            user := user })

/-! ## General lemmas about the association-list operations -/

/-- Looking up the key just stored finds the stored value. -/
theorem lookupAssoc_setAssoc {β : Type} (k : String) (v : β)
    (l : List (String × β)) : lookupAssoc k (setAssoc k v l) = some v := by
  induction l with
  | nil => simp [setAssoc, lookupAssoc]
  | cons p rest ih =>
    rcases p with ⟨k0, v0⟩
    by_cases h : k0 = k
    · simp [setAssoc, lookupAssoc, h]
    · simp [setAssoc, lookupAssoc, h, ih]

/-- Storing one key leaves every other key's binding unchanged. -/
theorem lookupAssoc_setAssoc_ne {β : Type} (k k2 : String) (v : β)
    (l : List (String × β)) (h : k2 ≠ k) :
    lookupAssoc k2 (setAssoc k v l) = lookupAssoc k2 l := by
  have hk : k ≠ k2 := Ne.symm h
  induction l with
  | nil => simp [setAssoc, lookupAssoc, hk]
  | cons p rest ih =>
    rcases p with ⟨k0, v0⟩
    by_cases h0 : k0 = k
    · subst h0
      simp [setAssoc, lookupAssoc, hk]
    · simp [setAssoc, lookupAssoc, h0, ih]

/-! ## Claim theorems: rate limiting -/

/-- **C1.** With options `limit = 3`, `window = 60`, four sequential
`increment` calls on a fresh key (all falling inside the window the first
call opens) return `limited = [false, false, false, true]` and
`remaining = [2, 1, 0, 0]`; and an `increment` on a key whose stored
window has `resetAt` in the past (`now > resetAt`) starts a new window
with count 1, returning `limited = false` and `remaining = limit - 1`. -/
theorem increment_fixedWindow_behavior
    (s : RateLimitState) (key : String) (t1 t2 t3 t4 : Int)
    (s2 : RateLimitState) (key2 : String) (w : RateWindow)
    (opts2 : RateLimitOptions) (now : Int)
    (hfresh : lookupAssoc key s = none)
    (h12 : t1 ≤ t2) (h23 : t2 ≤ t3) (h34 : t3 ≤ t4)
    (hwin : t4 ≤ t1 + 60000)
    (hstored : lookupAssoc key2 s2 = some w)
    (hpast : now > w.resetAt) (hlim : 1 ≤ opts2.limit) :
    (let opts : RateLimitOptions := { limit := 3, window := 60 }
     let r1 := MemoryRateLimitAdapter.increment s key opts t1
     let r2 := MemoryRateLimitAdapter.increment r1.2 key opts t2
     let r3 := MemoryRateLimitAdapter.increment r2.2 key opts t3
     let r4 := MemoryRateLimitAdapter.increment r3.2 key opts t4
     [r1.1.limited, r2.1.limited, r3.1.limited, r4.1.limited] =
        [false, false, false, true] ∧
     [r1.1.remaining, r2.1.remaining, r3.1.remaining, r4.1.remaining] =
        [2, 1, 0, 0]) ∧
    ((MemoryRateLimitAdapter.increment s2 key2 opts2 now).1.limited = false ∧
     (MemoryRateLimitAdapter.increment s2 key2 opts2 now).1.remaining =
        opts2.limit - 1 ∧
     lookupAssoc key2 (MemoryRateLimitAdapter.increment s2 key2 opts2 now).2 =
        some { count := 1, resetAt := now + opts2.window * 1000 }) := by
  constructor
  · have hc2 : ¬ (t1 + 60000 < t2) := by omega
    have hc3 : ¬ (t1 + 60000 < t3) := by omega
    have hc4 : ¬ (t1 + 60000 < t4) := by omega
    simp only [MemoryRateLimitAdapter.increment, hfresh, lookupAssoc_setAssoc]
    norm_num [hc2, hc3, hc4]
  · refine ⟨?_, ?_, ?_⟩ <;>
      simp [MemoryRateLimitAdapter.increment, hstored, hpast,
        lookupAssoc_setAssoc]
    · omega
    · omega

/-- Witness for C1: the fresh key `"k"` hit at times 0, 1, 2, 3 and the
expired window of key `"j"` (count 5, `resetAt = 10`) hit at time 20 with
`limit = 3`, `window = 60`. -/
theorem increment_fixedWindow_behavior_witness :
    lookupAssoc "k" ([] : RateLimitState) = none ∧
    (0 : Int) ≤ 1 ∧ (1 : Int) ≤ 2 ∧ (2 : Int) ≤ 3 ∧ (3 : Int) ≤ 0 + 60000 ∧
    lookupAssoc "j" ([("j", { count := 5, resetAt := 10 })] : RateLimitState) =
      some { count := 5, resetAt := 10 } ∧
    (20 : Int) > (10 : Int) ∧ (1 : Int) ≤ (3 : Int) ∧
    ((let opts : RateLimitOptions := { limit := 3, window := 60 }
      let r1 := MemoryRateLimitAdapter.increment [] "k" opts 0
      let r2 := MemoryRateLimitAdapter.increment r1.2 "k" opts 1
      let r3 := MemoryRateLimitAdapter.increment r2.2 "k" opts 2
      let r4 := MemoryRateLimitAdapter.increment r3.2 "k" opts 3
      [r1.1.limited, r2.1.limited, r3.1.limited, r4.1.limited] =
        [false, false, false, true] ∧
      [r1.1.remaining, r2.1.remaining, r3.1.remaining, r4.1.remaining] =
        [2, 1, 0, 0]) ∧
     ((MemoryRateLimitAdapter.increment [("j", { count := 5, resetAt := 10 })]
          "j" { limit := 3, window := 60 } 20).1.limited = false ∧
      (MemoryRateLimitAdapter.increment [("j", { count := 5, resetAt := 10 })]
          "j" { limit := 3, window := 60 } 20).1.remaining = 3 - 1 ∧
      lookupAssoc "j"
          (MemoryRateLimitAdapter.increment [("j", { count := 5, resetAt := 10 })]
            "j" { limit := 3, window := 60 } 20).2 =
        some { count := 1, resetAt := 20 + 60 * 1000 })) :=
  ⟨rfl, by decide, by decide, by decide, by decide, rfl, by decide, by decide,
   increment_fixedWindow_behavior [] "k" 0 1 2 3
     [("j", { count := 5, resetAt := 10 })] "j" { count := 5, resetAt := 10 }
     { limit := 3, window := 60 } 20 rfl (by decide) (by decide) (by decide)
     (by decide) rfl (by decide) (by decide)⟩

/-- **C9.** For a key with no stored window, the rate-limit adapter's `get`
returns `{limited: false, remaining: limit, limit, reset: 0, retryAfter: 0}`
(and, being a pure read in the source — it never writes to `limits` — it
creates no window). -/
theorem get_missingKey_fullLimit (s : RateLimitState) (key : String)
    (opts : RateLimitOptions) (now : Int)
    (hfresh : lookupAssoc key s = none) :
    MemoryRateLimitAdapter.get s key opts now =
      { limited := false, remaining := opts.limit, limit := opts.limit,
        reset := 0, retryAfter := 0 } := by
  simp [MemoryRateLimitAdapter.get, hfresh]

/-- Witness for C9: the never-seen key `"k"` in the empty store. -/
theorem get_missingKey_fullLimit_witness :
    lookupAssoc "k" ([] : RateLimitState) = none ∧
    MemoryRateLimitAdapter.get [] "k" { limit := 3, window := 60 } 17 =
      { limited := false, remaining := 3, limit := 3,
        reset := 0, retryAfter := 0 } :=
  ⟨rfl, get_missingKey_fullLimit [] "k" { limit := 3, window := 60 } 17 rfl⟩

/-- Counterexample to **C2** as stated: with the stored window
`{count := 2, resetAt := 1000}` for `"k"`, `limit = 3` and `now = 0`,
`get` reports `remaining = 1` while `increment` from the same stored state
reports `remaining = 0`, so `get` does not return exactly the result
`increment` would. -/
theorem get_neq_increment_counterexample :
    MemoryRateLimitAdapter.get
        [("k", { count := 2, resetAt := 1000 })] "k"
        { limit := 3, window := 60 } 0 ≠
      (MemoryRateLimitAdapter.increment
        [("k", { count := 2, resetAt := 1000 })] "k"
        { limit := 3, window := 60 } 0).1 := by
  decide

/-- **C2 (amended).** For a key with a stored, unexpired window, `get`
agrees with what `increment` would return on `limited`, `limit`, `reset`
and `retryAfter` (its `count ≥ limit` test coincides there with
`increment`'s post-increment `count > limit`), and it does not mutate the
store; but the `remaining` fields differ by one count: `get` reports
`max(0, limit - count)` for the stored count while `increment` reports
`max(0, limit - (count + 1))`. -/
theorem get_vs_increment_unexpired (s : RateLimitState) (key : String)
    (opts : RateLimitOptions) (now : Int) (w : RateWindow)
    (hw : lookupAssoc key s = some w) (hlive : ¬ now > w.resetAt) :
    (MemoryRateLimitAdapter.get s key opts now).limited =
        (MemoryRateLimitAdapter.increment s key opts now).1.limited ∧
    (MemoryRateLimitAdapter.get s key opts now).limit =
        (MemoryRateLimitAdapter.increment s key opts now).1.limit ∧
    (MemoryRateLimitAdapter.get s key opts now).reset =
        (MemoryRateLimitAdapter.increment s key opts now).1.reset ∧
    (MemoryRateLimitAdapter.get s key opts now).retryAfter =
        (MemoryRateLimitAdapter.increment s key opts now).1.retryAfter ∧
    (MemoryRateLimitAdapter.get s key opts now).remaining =
        max 0 (opts.limit - w.count) ∧
    (MemoryRateLimitAdapter.increment s key opts now).1.remaining =
        max 0 (opts.limit - (w.count + 1)) := by
  have hiff : (opts.limit ≤ w.count) ↔ (opts.limit < w.count + 1) := by omega
  simp only [MemoryRateLimitAdapter.get, MemoryRateLimitAdapter.increment,
    hw, hlive, if_neg hlive, ge_iff_le, gt_iff_lt]
  refine ⟨by simp [hiff], by trivial, by trivial, by simp [hiff],
    by trivial, by trivial⟩

/-- Witness for the amended C2: key `"k"`, stored count 2 with
`resetAt = 1000`, read at `now = 0` with `limit = 3`. -/
theorem get_vs_increment_unexpired_witness :
    lookupAssoc "k" ([("k", { count := 2, resetAt := 1000 })] : RateLimitState) =
      some { count := 2, resetAt := 1000 } ∧
    ¬ (0 : Int) > (1000 : Int) ∧
    (MemoryRateLimitAdapter.get [("k", { count := 2, resetAt := 1000 })] "k"
          { limit := 3, window := 60 } 0).remaining = max 0 (3 - 2) ∧
    (MemoryRateLimitAdapter.increment [("k", { count := 2, resetAt := 1000 })]
          "k" { limit := 3, window := 60 } 0).1.remaining =
      max 0 (3 - (2 + 1)) :=
  ⟨rfl, by decide,
   (get_vs_increment_unexpired [("k", { count := 2, resetAt := 1000 })] "k"
      { limit := 3, window := 60 } 0 { count := 2, resetAt := 1000 } rfl
      (by decide)).2.2.2.2.1,
   (get_vs_increment_unexpired [("k", { count := 2, resetAt := 1000 })] "k"
      { limit := 3, window := 60 } 0 { count := 2, resetAt := 1000 } rfl
      (by decide)).2.2.2.2.2⟩

/-! ## Claim theorems: the memory cache adapter -/

/-- A key that is not among a list's keys has no binding. -/
theorem lookupAssoc_eq_none_of_notMem {β : Type} (k : String)
    (l : List (String × β)) (h : k ∉ l.map Prod.fst) :
    lookupAssoc k l = none := by
  induction l with
  | nil => rfl
  | cons p rest ih =>
    rcases p with ⟨k0, v0⟩
    simp only [List.map_cons, List.mem_cons] at h
    push_neg at h
    have hne : k0 ≠ k := fun hh => h.1 hh.symm
    simp [lookupAssoc, hne, ih h.2]

/-- With duplicate-free keys (the `Map` representation invariant), erasing
a key removes its binding. -/
theorem lookupAssoc_eraseAssoc_self {β : Type} (k : String)
    (l : List (String × β)) (h : (l.map Prod.fst).Nodup) :
    lookupAssoc k (eraseAssoc k l) = none := by
  induction l with
  | nil => rfl
  | cons p rest ih =>
    rcases p with ⟨k0, v0⟩
    simp only [List.map_cons, List.nodup_cons] at h
    by_cases h0 : k0 = k
    · subst h0
      simp only [eraseAssoc, if_pos rfl]
      exact lookupAssoc_eq_none_of_notMem k0 rest h.1
    · simp [eraseAssoc, lookupAssoc, h0, ih h.2]

/-- `removeFromTagIndex` never touches the entry map. -/
theorem removeFromTagIndex_cache {α : Type} (s : CacheState α)
    (key : String) :
    (MemoryCacheAdapter.removeFromTagIndex s key).cache = s.cache := by
  unfold MemoryCacheAdapter.removeFromTagIndex
  cases lookupAssoc key s.cache with
  | none => rfl
  | some entry =>
    by_cases h : entry.tags = [] <;> simp [h]

/-- **C4.** `get` returns the stored value unless the entry is absent or
its expiry is nonzero and `≤ now`; a lazily-expired read returns a miss
and deletes the entry; and after `set(key, v)` with `ttl = 0` the entry
never expires, so a `get` at any later time still returns `v`. -/
theorem cache_get_semantics {α : Type}
    (s0 s1 s2 : CacheState α) (key : String) (now : Int)
    (e1 e2 : CacheEntry α) (v : α) (tags : Option (List String)) (t0 t : Int)
    (h0 : lookupAssoc key s0.cache = none)
    (h1 : lookupAssoc key s1.cache = some e1)
    (h1live : ¬ (e1.expires ≠ 0 ∧ e1.expires ≤ now))
    (h2 : lookupAssoc key s2.cache = some e2)
    (h2exp : e2.expires ≠ 0) (h2le : e2.expires ≤ now)
    (h2nodup : (s2.cache.map Prod.fst).Nodup) :
    MemoryCacheAdapter.get s0 key now = (none, s0) ∧
    MemoryCacheAdapter.get s1 key now = (some e1.value, s1) ∧
    (MemoryCacheAdapter.get s2 key now).1 = none ∧
    lookupAssoc key (MemoryCacheAdapter.get s2 key now).2.cache = none ∧
    (MemoryCacheAdapter.get
        (MemoryCacheAdapter.set s1 key v { ttl := some 0, tags := tags } t0)
        key t).1 = some v := by
  refine ⟨?_, ?_, ?_, ?_, ?_⟩
  · simp [MemoryCacheAdapter.get, h0]
  · simp [MemoryCacheAdapter.get, h1, h1live]
  · simp [MemoryCacheAdapter.get, h2, h2exp, h2le]
  · simp only [MemoryCacheAdapter.get, h2, h2exp, h2le, ne_eq,
      not_false_eq_true, and_self, if_pos]
    rw [removeFromTagIndex_cache]
    exact lookupAssoc_eraseAssoc_self key s2.cache h2nodup
  · have hset :
        lookupAssoc key
          (MemoryCacheAdapter.set s1 key v
            { ttl := some 0, tags := tags } t0).cache =
        some { value := v, expires := 0, createdAt := t0,
               tags := tags.getD [] } := by
      unfold MemoryCacheAdapter.set
      cases tags with
      | none => simp [lookupAssoc_setAssoc]
      | some ts =>
        by_cases hts : ts = [] <;>
          simp [hts, lookupAssoc_setAssoc]
    simp [MemoryCacheAdapter.get, hset]

/-- Witness for C4: a missing key, a live entry (expiry 9000 read at 500),
an expired entry (expiry 100, nonzero, read at 500), and a ttl-0 write
read much later. -/
theorem cache_get_semantics_witness :
    lookupAssoc "a" (MemoryCacheAdapter.empty (α := Nat)).cache = none ∧
    (MemoryCacheAdapter.get
        ({ cache := [("a", { value := 7, expires := 9000, createdAt := 0,
                             tags := [] })],
           tagIndex := [] } : CacheState Nat) "a" 500).1 = some 7 ∧
    (MemoryCacheAdapter.get
        ({ cache := [("a", { value := 7, expires := 100, createdAt := 0,
                             tags := [] })],
           tagIndex := [] } : CacheState Nat) "a" 500).1 = none ∧
    lookupAssoc "a"
        (MemoryCacheAdapter.get
          ({ cache := [("a", { value := 7, expires := 100, createdAt := 0,
                               tags := [] })],
             tagIndex := [] } : CacheState Nat) "a" 500).2.cache = none ∧
    (MemoryCacheAdapter.get
        (MemoryCacheAdapter.set
          ({ cache := [("a", { value := 7, expires := 9000, createdAt := 0,
                               tags := [] })],
             tagIndex := [] } : CacheState Nat)
          "a" 7 { ttl := some 0, tags := none } 0)
        "a" 999999999).1 = some 7 := by
  have h := cache_get_semantics (MemoryCacheAdapter.empty (α := Nat))
    ({ cache := [("a", { value := 7, expires := 9000, createdAt := 0,
                         tags := [] })], tagIndex := [] } : CacheState Nat)
    ({ cache := [("a", { value := 7, expires := 100, createdAt := 0,
                         tags := [] })], tagIndex := [] } : CacheState Nat)
    "a" 500
    { value := 7, expires := 9000, createdAt := 0, tags := [] }
    { value := 7, expires := 100, createdAt := 0, tags := [] }
    7 none 0 999999999 rfl rfl (by decide) rfl (by decide) (by decide)
    (by decide)
  refine ⟨rfl, ?_, h.2.2.1, h.2.2.2.1, h.2.2.2.2⟩
  rw [h.2.1]

/-- **C10.** `set` without a `ttl` option stores an entry expiring 300
seconds after insertion (the default is 300, not never-expiring), so a
`get` on that key 300 or more seconds later is a miss.  `0 ≤ t0` reflects
that `Date.now()` is nonnegative. -/
theorem cache_set_defaultTtl_300 {α : Type} (s : CacheState α) (key : String)
    (v : α) (tags : Option (List String)) (t0 t : Int)
    (ht0 : 0 ≤ t0) (ht : t0 + 300000 ≤ t) :
    lookupAssoc key
        (MemoryCacheAdapter.set s key v { ttl := none, tags := tags } t0).cache =
      some { value := v, expires := t0 + 300 * 1000, createdAt := t0,
             tags := tags.getD [] } ∧
    (MemoryCacheAdapter.get
        (MemoryCacheAdapter.set s key v { ttl := none, tags := tags } t0)
        key t).1 = none := by
  have hset :
      lookupAssoc key
        (MemoryCacheAdapter.set s key v { ttl := none, tags := tags } t0).cache =
      some { value := v, expires := t0 + 300 * 1000, createdAt := t0,
             tags := tags.getD [] } := by
    unfold MemoryCacheAdapter.set
    cases tags with
    | none => simp [lookupAssoc_setAssoc]
    | some ts =>
      by_cases hts : ts = [] <;> simp [hts, lookupAssoc_setAssoc]
  refine ⟨hset, ?_⟩
  have hexp : ¬ (t0 + 300000 : Int) = 0 := by omega
  have hle : (t0 + 300000 : Int) ≤ t := by omega
  simp [MemoryCacheAdapter.get, hset, hexp, hle]

/-- Witness for C10: `set("a", 7)` with no ttl at time 0, read at time
300000. -/
theorem cache_set_defaultTtl_300_witness :
    (0 : Int) ≤ 0 ∧ (0 : Int) + 300000 ≤ 300000 ∧
    lookupAssoc "a"
        (MemoryCacheAdapter.set (MemoryCacheAdapter.empty (α := Nat)) "a" 7
          { ttl := none, tags := none } 0).cache =
      some { value := 7, expires := 0 + 300 * 1000, createdAt := 0,
             tags := [] } ∧
    (MemoryCacheAdapter.get
        (MemoryCacheAdapter.set (MemoryCacheAdapter.empty (α := Nat)) "a" 7
          { ttl := none, tags := none } 0)
        "a" 300000).1 = none := by
  have h := cache_set_defaultTtl_300 (MemoryCacheAdapter.empty (α := Nat))
    "a" 7 none 0 300000 (by decide) (by decide)
  exact ⟨by decide, by decide, h.1, h.2⟩

/-- **C3** fails on the code (the claim states the documented invariant;
the code breaks it): a lazily-expired `get` deletes the cache entry
*before* calling `removeFromTagIndex`, which then finds no entry and
prunes nothing; and `invalidateByTag` deletes the entries of the given
tag's keys without pruning those entries' other tags.  Both traces below
end in a state where a tag's set holds a key with no stored entry. -/
theorem tagIndex_orphans_after_expiredGet_and_invalidateByTag :
    (let s1 := MemoryCacheAdapter.set (MemoryCacheAdapter.empty (α := Nat))
                 "a" 7 { ttl := some 5, tags := some ["g"] } 0
     let s2 := (MemoryCacheAdapter.get s1 "a" 6000).2
     ¬ tagInvariant s2 ∧ s2.cache = [] ∧ s2.tagIndex = [("g", ["a"])]) ∧
    (let u1 := MemoryCacheAdapter.set (MemoryCacheAdapter.empty (α := Nat))
                 "a" 7 { ttl := some 5, tags := some ["g", "h"] } 0
     let u2 := MemoryCacheAdapter.invalidateByTag u1 "g"
     ¬ tagInvariant u2 ∧ u2.cache = [] ∧ u2.tagIndex = [("h", ["a"])]) := by
  decide

/-! ## Claim theorems: the REST router -/

/-- **C5.** `handle` scans the registered routes in registration order and
dispatches to the first whose method matches (exact or `"ALL"`) and whose
pattern matches the path — no specificity ranking, so an
earlier-registered matching route wins over every later one; no match
yields the NotFound fallback.  Concretely, after registering
`GET /items/:id`, dispatching `GET /items/7` invokes that route with
params `{id: "7"}` and `POST /items/7` is NotFound. -/
theorem router_firstMatch_dispatch {H : Type}
    (rs1 rs2 : List (Route H)) (r : Route H) (method path : String)
    (params : List (String × String)) (h0 : H)
    (hskip : ∀ r2 ∈ rs1, matchRoute r2 method path = none)
    (hmatch : matchRoute r method path = some params) :
    handle (rs1 ++ r :: rs2) method path = some (r, params) ∧
    (let rs := addRoute ([] : List (Route H)) "" "GET" "/items/:id" h0
     (handle rs "GET" "/items/7").map (fun p => (p.1.handler, p.2)) =
        some (h0, [("id", "7")]) ∧
     handle rs "POST" "/items/7" = none) := by
  constructor
  · induction rs1 with
    | nil => simp [handle, hmatch]
    | cons a l ih =>
      have ha := hskip a (List.mem_cons_self a l)
      simp only [List.cons_append, handle, ha]
      exact ih (fun r2 hr2 => hskip r2 (List.mem_cons_of_mem a hr2))
  · exact ⟨rfl, rfl⟩

/-- Witness for C5: a hand-compiled route for `GET /x/:id` matched against
`GET /x/7` at the head of the route list. -/
theorem router_firstMatch_dispatch_witness :
    (∀ r2 ∈ ([] : List (Route Nat)), matchRoute r2 "GET" "/x/7" = none) ∧
    matchRoute
        ({ method := "GET", path := "/x/:id",
           pattern := [Tok.lit '/', Tok.lit 'x', Tok.lit '/', Tok.seg],
           paramNames := ["id"], handler := 5 } : Route Nat)
        "GET" "/x/7" = some [("id", "7")] ∧
    (handle
        ([] ++
          ({ method := "GET", path := "/x/:id",
             pattern := [Tok.lit '/', Tok.lit 'x', Tok.lit '/', Tok.seg],
             paramNames := ["id"], handler := 5 } : Route Nat) :: [])
        "GET" "/x/7" =
      some ({ method := "GET", path := "/x/:id",
              pattern := [Tok.lit '/', Tok.lit 'x', Tok.lit '/', Tok.seg],
              paramNames := ["id"], handler := 5 }, [("id", "7")]) ∧
     (let rs := addRoute ([] : List (Route Nat)) "" "GET" "/items/:id" 5
      (handle rs "GET" "/items/7").map (fun p => (p.1.handler, p.2)) =
         some (5, [("id", "7")]) ∧
      handle rs "POST" "/items/7" = none)) :=
  ⟨by simp, by decide,
   router_firstMatch_dispatch [] []
     { method := "GET", path := "/x/:id",
       pattern := [Tok.lit '/', Tok.lit 'x', Tok.lit '/', Tok.seg],
       paramNames := ["id"], handler := 5 }
     "GET" "/x/7" [("id", "7")] 5 (by simp) (by decide)⟩

/-- **C6** fails on the code: `addRoute` first rewrites `**` to `.*`, but
the following global rewrite of `*` to `[^/]*` also rewrites the `*` it
just produced, so `**` compiles to `.` followed by `[^/]*` — one arbitrary
character and then at most one further slash-free segment, with no capture
group.  The compiled `GET /files/**` route therefore does **not** match
`/files/a/b` (a remainder containing `/`), though it does match
`/files/ab`. -/
theorem doubleStar_not_matching_remainder :
    (addRoute ([] : List (Route Nat)) "" "GET" "/files/**" 0).map
        (fun r => (r.pattern, r.paramNames)) =
      [([Tok.lit '/', Tok.lit 'f', Tok.lit 'i', Tok.lit 'l', Tok.lit 'e',
         Tok.lit 's', Tok.lit '/', Tok.dot, Tok.star], [])] ∧
    handle (addRoute ([] : List (Route Nat)) "" "GET" "/files/**" 0)
        "GET" "/files/a/b" = none ∧
    (handle (addRoute ([] : List (Route Nat)) "" "GET" "/files/**" 0)
        "GET" "/files/ab").map (fun p => (p.1.handler, p.2)) =
      some (0, []) := by
  refine ⟨rfl, ?_, rfl⟩
  decide

/-! ## Claim theorems: validation and authentication stages -/

/-- **C8.** With `auth.required = true` and no token supplied, the
pipeline fails with status 401 and message "Authentication required"
(whatever the validation config); with `auth.optional = true` (and not
required) and a token the verifier rejects, the authentication error is
swallowed, the handler still runs, and the context's user remains unset. -/
theorem pipeline_auth_required_and_optional {α : Type}
    (verify : Verifier) (handler : Req → ApiContext → α)
    (reqR reqO : Req) (aR aO : AuthCfg) (vR : Option ValidationCfg)
    (rpR rpO : Rec) (tok : String) (f : AuthFailure)
    (hR : aR.required = true)
    (hRtok : reqR.authToken = none)
    (hO : aO.required = false) (hOopt : aO.optional = true)
    (hOtok : reqO.authToken = some tok)
    (hverify : verify tok = Except.error f) :
    runPipeline verify { auth := some aR, validation := vR } handler reqR rpR =
      Except.error { message := "Authentication required",
                     statusCode := 401 } ∧
    runPipeline verify { auth := some aO, validation := none } handler reqO
        rpO =
      Except.ok (handler reqO
        { params := spreadMerge rpO [], query := [], body := [],
          user := none }) := by
  constructor
  · simp [runPipeline, authStage, validateAuth, hR, hRtok]
  · cases f <;>
      simp [runPipeline, authStage, validateAuth, validationStage,
        hO, hOopt, hOtok, hverify]

/-- Witness for C8: a verifier rejecting every token, one tokenless
request against `required = true` and one bad-token request against
`optional = true`. -/
theorem pipeline_auth_required_and_optional_witness :
    runPipeline (fun _ => Except.error (AuthFailure.other "bad signature"))
        { auth := some { required := true }, validation := none }
        ((fun _ ctx => ctx.user) : Req → ApiContext → Option ApiUser)
        { method := "GET", searchParams := [], body := [], authToken := none }
        [] =
      Except.error { message := "Authentication required",
                     statusCode := 401 } ∧
    runPipeline (fun _ => Except.error (AuthFailure.other "bad signature"))
        { auth := some { optional := true }, validation := none }
        ((fun _ ctx => ctx.user) : Req → ApiContext → Option ApiUser)
        { method := "GET", searchParams := [], body := [],
          authToken := some "not-a-jwt" }
        [] =
      Except.ok
        (((fun _ ctx => ctx.user) : Req → ApiContext → Option ApiUser)
          ({ method := "GET", searchParams := [], body := [],
             authToken := some "not-a-jwt" } : Req)
          { params := spreadMerge [] [], query := [], body := [],
            user := none }) :=
  pipeline_auth_required_and_optional
    (fun _ => Except.error (AuthFailure.other "bad signature"))
    ((fun _ ctx => ctx.user) : Req → ApiContext → Option ApiUser)
    { method := "GET", searchParams := [], body := [], authToken := none }
    { method := "GET", searchParams := [], body := [],
      authToken := some "not-a-jwt" }
    { required := true } { optional := true } none [] [] "not-a-jwt"
    (AuthFailure.other "bad signature")
    rfl rfl rfl rfl rfl rfl

end ApiFramework
